import Mathlib

/-!
# Verification of the adsb-index Mode S / ADS-B decoder

Shallow embedding of the Mode S frame decoder and its ADS-B extended-squitter
payload decoder (crates `adsb-index-api-server` and `adsbee-types`), together
with theorems settling the specification claims.

Bytes and machine words are modelled as `Nat` with explicit masking where the
Rust arithmetic can overflow (e.g. `u8` shifts truncate modulo 256).  Fallible
Rust code returning `Result<_, DecodeError>` is modelled with an explicit
outcome type; Rust panics (`todo!`, `assert!`, failed infallible buffer reads)
are modelled by a dedicated `panicked` outcome.
-/

set_option maxRecDepth 10000

/-- Decode errors of the Mode S frame decoder (`DecodeError` in
`source/mode_s/mod.rs`). -/
inductive ModeS.DecodeError where
  | noDf : ModeS.DecodeError
  | invalidDf (value : Nat) : ModeS.DecodeError
  | truncated (expected_length buffer_length : Nat) : ModeS.DecodeError
  | invalidCallsign (encoding : List Nat) (invalid_byte : Nat) : ModeS.DecodeError
  | todo : ModeS.DecodeError
deriving DecidableEq, Repr

/-- Outcome of running a piece of decoder code: a value, a `DecodeError`, or a
Rust panic (`todo!()`, a failed `assert!`, or an out-of-bounds infallible
buffer read). -/
inductive DOut (α : Type) where
  | ok (a : α) : DOut α
  | err (e : ModeS.DecodeError) : DOut α
  | panicked : DOut α
deriving DecidableEq, Repr

def DOut.bind {α β : Type} (x : DOut α) (f : α → DOut β) : DOut β :=
  match x with
  | .ok a => f a
  | .err e => .err e
  | .panicked => .panicked

instance : Monad DOut where
  pure := DOut.ok
  bind := DOut.bind

/-- The forward byte reader consumed by the decoder (the `bytes::Buf`
abstraction): a list of pending bytes. -/
structure Buf where
  bytes : List Nat
deriving DecidableEq, Repr

/-- `Buf::remaining`. -/
def Buf.remaining (b : Buf) : Nat :=
  b.bytes.length

/-- `Buf::try_get_u8`: read one byte or report failure. -/
def Buf.tryGetU8 (b : Buf) : Option (Nat × Buf) :=
  match b.bytes with
  | [] => none
  | x :: xs => some (x, ⟨xs⟩)

/-- `Buf::get_u8`: read one byte, panicking if the buffer is empty. -/
def Buf.getU8 (b : Buf) : DOut (Nat × Buf) :=
  match b.bytes with
  | [] => .panicked
  | x :: xs => .ok (x, ⟨xs⟩)

/-- `BufReadBytesExt::get_bytes::<N>`: read `n` consecutive bytes into an
array, panicking if fewer remain. -/
def Buf.getBytes (b : Buf) (n : Nat) : DOut (List Nat × Buf) :=
  if n ≤ b.bytes.length then .ok (b.bytes.take n, ⟨b.bytes.drop n⟩)
  else .panicked

/-- `Buf::get_u32`: read four bytes as a big-endian `u32`, panicking if fewer
remain. -/
def Buf.getU32 (b : Buf) : DOut (Nat × Buf) :=
  match b.bytes with
  | b0 :: b1 :: b2 :: b3 :: rest =>
      .ok (((b0 <<< 24) ||| (b1 <<< 16) ||| (b2 <<< 8) ||| b3), ⟨rest⟩)
  | _ => .panicked

/-! ## `adsbee-types`: `IcaoAddress` and `Squawk` -/

/-- 24-bit ICAO aircraft address plus a non-ICAO flag
(`IcaoAddress` in `adsbee-types/src/lib.rs`). -/
structure IcaoAddress where
  address : Nat
  non_icao : Bool
deriving DecidableEq, Repr

/-- `IcaoAddress::from_u32_unchecked`. -/
def IcaoAddress.from_u32_unchecked (address : Nat) : IcaoAddress :=
  { address := address, non_icao := false }

/-- `IcaoAddress::from_u32`: checked constructor. -/
def IcaoAddress.from_u32 (address : Nat) : Option IcaoAddress :=
  if address < 0x1000000 then some (IcaoAddress.from_u32_unchecked address) else none

/-- `IcaoAddress::with_non_icao_flag`. -/
def IcaoAddress.with_non_icao_flag (a : IcaoAddress) : IcaoAddress :=
  { address := a.address, non_icao := true }

/-- `IcaoAddress::as_bytes`: big-endian bytes 1..4 of the `u32` address, after
an `assert!` that the top byte is zero (a failed assert is a panic). -/
def IcaoAddress.as_bytes (a : IcaoAddress) : DOut (List Nat) :=
  if a.address / 0x1000000 % 256 = 0 then
    .ok [a.address / 0x10000 % 256, a.address / 0x100 % 256, a.address % 256]
  else
    .panicked

/-- `IcaoAddress::from_bytes`: rebuild the address from three big-endian
bytes; the non-ICAO flag is always cleared (`from_u32_unchecked`). -/
def IcaoAddress.from_bytes (bytes : List Nat) : IcaoAddress :=
  IcaoAddress.from_u32_unchecked
    ((bytes.getD 0 0) * 0x10000 + (bytes.getD 1 0) * 0x100 + bytes.getD 2 0)

/-- `as_bytes` followed by `from_bytes` (the round trip of spec property §8.6),
with the panic of the `assert!` in `as_bytes` propagated. -/
def IcaoAddress.roundtrip (a : IcaoAddress) : DOut IcaoAddress :=
  match a.as_bytes with
  | .ok bs => .ok (IcaoAddress.from_bytes bs)
  | .err e => .err e
  | .panicked => .panicked

/-- 12-bit Mode-A identity code (`Squawk` in `adsbee-types/src/lib.rs`). -/
structure Squawk where
  code : Nat
deriving DecidableEq, Repr

/-- `Squawk::from_u16_unchecked`. -/
def Squawk.from_u16_unchecked (code : Nat) : Squawk :=
  { code := code }

/-- `Squawk::from_u16`: the source compares against the literal `010000`,
which in Rust is the DECIMAL number 10000 (Rust has no leading-zero octal
syntax; octal would be `0o10000`). -/
def Squawk.from_u16 (code : Nat) : Option Squawk :=
  if code < 10000 then some (Squawk.from_u16_unchecked code) else none

/-- `Squawk::AIRCRAFT_HIJACKING` (0o7500). -/
def Squawk.AIRCRAFT_HIJACKING : Squawk := Squawk.from_u16_unchecked 0o7500

/-- `Squawk::RADIO_FAILURE` (0o7600). -/
def Squawk.RADIO_FAILURE : Squawk := Squawk.from_u16_unchecked 0o7600

/-- `Squawk::EMERGENCY` (0o7700). -/
def Squawk.EMERGENCY : Squawk := Squawk.from_u16_unchecked 0o7700

/-! ## Mode S scalar domain types (`source/mode_s/mod.rs`) -/

/-- 3-bit capability value (`Capability`). -/
structure ModeS.Capability where
  val : Nat
deriving DecidableEq, Repr

/-- `Capability::from_u8_unchecked`. -/
def ModeS.Capability.from_u8_unchecked (byte : Nat) : ModeS.Capability :=
  ⟨byte⟩

/-- 3-bit code format of a DF 18 frame (`CodeFormat`). -/
structure ModeS.CodeFormat where
  val : Nat
deriving DecidableEq, Repr

/-- `CodeFormat::from_u8_unchecked`. -/
def ModeS.CodeFormat.from_u8_unchecked (byte : Nat) : ModeS.CodeFormat :=
  ⟨byte⟩

/-- 3-bit flight status (`FlightStatus`). -/
structure ModeS.FlightStatus where
  val : Nat
deriving DecidableEq, Repr

/-- 5-bit downlink request (`DownlinkRequest`). -/
structure ModeS.DownlinkRequest where
  val : Nat
deriving DecidableEq, Repr

/-- 4-bit IIS in the utility message (`InterrogatorIdentifierSubfield`). -/
structure ModeS.InterrogatorIdentifierSubfield where
  val : Nat
deriving DecidableEq, Repr

/-- 2-bit IDS in the utility message (`InterrogatorReservationType`). -/
structure ModeS.InterrogatorReservationType where
  val : Nat
deriving DecidableEq, Repr

/-- 6-bit utility message (`UtilityMessage`). -/
structure ModeS.UtilityMessage where
  interrogator_identifier_subfield : ModeS.InterrogatorIdentifierSubfield
  interrogator_reservation_type : ModeS.InterrogatorReservationType
deriving DecidableEq, Repr

/-- `UtilityMessage::from_u8_unchecked`: splits the 6-bit value into the
4-bit IIS (high) and 2-bit IDS (low). -/
def ModeS.UtilityMessage.from_u8_unchecked (byte : Nat) : ModeS.UtilityMessage :=
  { interrogator_identifier_subfield := ⟨byte >>> 2⟩
    interrogator_reservation_type := ⟨byte &&& 0b11⟩ }

/-- 13-bit altitude / Mode C code (`AltitudeCode` in `mod.rs`). -/
structure ModeS.AltitudeCode where
  val : Nat
deriving DecidableEq, Repr

/-- 13-bit identity / Mode A code (`IdentityCode`). -/
structure ModeS.IdentityCode where
  val : Nat
deriving DecidableEq, Repr

/-- `VerticalStatus`. -/
inductive ModeS.VerticalStatus where
  | airborne : ModeS.VerticalStatus
  | ground : ModeS.VerticalStatus
deriving DecidableEq, Repr

/-- `CrossLinkCapability`. -/
structure ModeS.CrossLinkCapability where
  val : Bool
deriving DecidableEq, Repr

/-- `SensitivityLevel`. -/
structure ModeS.SensitivityLevel where
  val : Nat
deriving DecidableEq, Repr

/-- `ReplyInformation`. -/
structure ModeS.ReplyInformation where
  val : Nat
deriving DecidableEq, Repr

/-- The 3 trailing address/parity bytes of a frame (`Parity`). -/
structure ModeS.Parity where
  val : List Nat
deriving DecidableEq, Repr

/-! ## Bit-field utilities (`source/mode_s/util.rs`, not present under
`src/`; modelled from the spec) -/

/-- Modelled from the spec: `util::gillham::decode_gillham_id13` is missing
from the sources.  Spec §4.1: the twelve interleaved bits of the 13-bit
identity word are reshuffled into the four octal digits `ABCD` of a Mode-A
squawk, the ident bit (bit 6 of the 13) not included.  The standard Mode S
ID13 bit order `C1 A1 C2 A2 C4 A4 X B1 D1 B2 D2 B4 D4` (most significant
first) is used for the exact interleave, which the spec leaves implicit. -/
def decode_gillham_id13 (w : Nat) : Nat :=
  let bit := fun (i : Nat) => (w >>> i) &&& 1
  -- digit A = A4 A2 A1, B = B4 B2 B1, C = C4 C2 C1, D = D4 D2 D1
  let a := (bit 7 <<< 2) ||| (bit 9 <<< 1) ||| bit 11
  let b := (bit 1 <<< 2) ||| (bit 3 <<< 1) ||| bit 5
  let c := (bit 8 <<< 2) ||| (bit 10 <<< 1) ||| bit 12
  let d := (bit 0 <<< 2) ||| (bit 2 <<< 1) ||| bit 4
  a * 0o1000 + b * 0o100 + c * 0o10 + d

/-- Modelled from the spec: `util::decode_frame_aligned_altitude_or_identity_code`
is missing from the sources.  Spec §4.4: the 13-bit altitude or identity code
sits in the trailing bits of two consecutive bytes. -/
def decode_frame_aligned_altitude_or_identity_code (bytes : List Nat) : Nat :=
  (((bytes.getD 0 0) <<< 8) ||| bytes.getD 1 0) &&& 0x1FFF

/-- CPR format flag (`CprFormat` in `source/mode_s/cpr.rs`, missing from the
sources; modelled from the spec: the position is tagged `Even` or `Odd`). -/
inductive CprFormat where
  | even : CprFormat
  | odd : CprFormat
deriving DecidableEq, Repr

/-- Modelled from the spec: `Cpr` (in the missing `source/mode_s/cpr.rs`)
holds the 17-bit encoded latitude and 17-bit encoded longitude. -/
structure Cpr where
  latitude : Nat
  longitude : Nat
deriving DecidableEq, Repr

/-- Modelled from the spec: `util::decode_frame_aligned_encoded_position` is
missing from the sources.  Spec §4.1: from the last five payload bytes of a
position message (`....TFll llllllll lllllllL LLLLLLLL LLLLLLLL`), extract
the 1-bit CPR format flag `F` and the 17/17-bit latitude/longitude pair at
their declared offsets. -/
def decode_frame_aligned_encoded_position (bytes : List Nat) : CprFormat × Cpr :=
  let b0 := bytes.getD 0 0
  let b1 := bytes.getD 1 0
  let b2 := bytes.getD 2 0
  let b3 := bytes.getD 3 0
  let b4 := bytes.getD 4 0
  let format := if (b0 >>> 2) &&& 1 = 0 then CprFormat.even else CprFormat.odd
  let latitude := ((b0 &&& 0b11) <<< 15) ||| (b1 <<< 7) ||| (b2 >>> 1)
  let longitude := ((b2 &&& 1) <<< 16) ||| (b3 <<< 8) ||| b4
  (format, { latitude := latitude, longitude := longitude })

/-- Modelled from the spec: `util::decode_air_air_surveillance_common_fields`
is missing from the sources.  It extracts, from bits 6..8 of byte 0 and the
following three bytes of a DF 0/16 frame, the vertical status (bit 6), the
3-bit sensitivity level, the 4-bit reply information and the 13-bit altitude
code, at the bit offsets of the Mode S air-air surveillance format. -/
def decode_air_air_surveillance_common_fields (bits_6_to_8 : Nat)
    (bytes : List Nat) :
    ModeS.VerticalStatus × ModeS.SensitivityLevel × ModeS.ReplyInformation ×
      ModeS.AltitudeCode :=
  let b0 := bytes.getD 0 0
  let b1 := bytes.getD 1 0
  let b2 := bytes.getD 2 0
  let vertical_status :=
    if bits_6_to_8 &&& 0b100 = 0 then ModeS.VerticalStatus.airborne
    else ModeS.VerticalStatus.ground
  let sensitivity_level : ModeS.SensitivityLevel := ⟨b0 >>> 5⟩
  let reply_information : ModeS.ReplyInformation :=
    ⟨((b0 &&& 0b111) <<< 1) ||| (b1 >>> 7)⟩
  let altitude_code : ModeS.AltitudeCode := ⟨((b1 &&& 0x1F) <<< 8) ||| b2⟩
  (vertical_status, sensitivity_level, reply_information, altitude_code)

/-- Modelled from the spec: `util::decode_surveillance_reply_body` is missing
from the sources.  Spec §4.4: a surveillance reply (DF 4/5/20/21) carries the
3-bit flight status in bits 6..8 of byte 0, then the 5-bit downlink request,
the 6-bit utility message and the 13-bit altitude/identity code in the next
three bytes. -/
def decode_surveillance_reply_body (bits_6_to_8 : Nat) (bytes : List Nat) :
    ModeS.FlightStatus × ModeS.DownlinkRequest × ModeS.UtilityMessage × Nat :=
  let b0 := bytes.getD 0 0
  let b1 := bytes.getD 1 0
  let b2 := bytes.getD 2 0
  let flight_status : ModeS.FlightStatus := ⟨bits_6_to_8⟩
  let downlink_request : ModeS.DownlinkRequest := ⟨b0 >>> 3⟩
  let utility_message :=
    ModeS.UtilityMessage.from_u8_unchecked (((b0 &&& 0b111) <<< 3) ||| (b1 >>> 5))
  let code := ((b1 &&& 0x1F) <<< 8) ||| b2
  (flight_status, downlink_request, utility_message, code)

/-- Modelled from the spec: `tisb::Message` (in the missing
`source/mode_s/tisb.rs`) carries a TIS-B payload whose internal structure the
spec leaves unspecified; the seven ME bytes are preserved verbatim. -/
structure Tisb.Message where
  data : List Nat
deriving DecidableEq, Repr

/-- Modelled from the spec: `tisb::Message::decode` reads the seven-byte ME
payload of a TIS-B extended squitter. -/
def Tisb.Message.decode (buffer : Buf) : DOut (Tisb.Message × Buf) :=
  DOut.bind (buffer.getBytes 7) fun (p : List Nat × Buf) =>
    DOut.ok ({ data := p.1 }, p.2)

/-! ## ADS-B scalar types (`source/mode_s/adsb.rs`) -/

/-- `WakeVortexCategory`. -/
inductive Adsb.WakeVortexCategory where
  | reserved (type_code category : Nat) : Adsb.WakeVortexCategory
  | noCategoryInformation (type_code : Nat) : Adsb.WakeVortexCategory
  | surfaceEmergencyVehicle : Adsb.WakeVortexCategory
  | surfaceServiceVehicle : Adsb.WakeVortexCategory
  | groundObstruction (category : Nat) : Adsb.WakeVortexCategory
  | gliderSailplane : Adsb.WakeVortexCategory
  | lighterThanAir : Adsb.WakeVortexCategory
  | parachutistSkydiver : Adsb.WakeVortexCategory
  | ultralightHangGliderParaGlider : Adsb.WakeVortexCategory
  | unmannedAerialVehicle : Adsb.WakeVortexCategory
  | spaceTransatmospherricVehicle : Adsb.WakeVortexCategory
  | light : Adsb.WakeVortexCategory
  | medium1 : Adsb.WakeVortexCategory
  | medium2 : Adsb.WakeVortexCategory
  | highVortexAirrcraft : Adsb.WakeVortexCategory
  | heavy : Adsb.WakeVortexCategory
  | highPerformance : Adsb.WakeVortexCategory
  | rotorcraft : Adsb.WakeVortexCategory
deriving DecidableEq, Repr

/-- `WakeVortexCategory::from_type_code_and_category_unchecked`: the match on
`(type_code, category)` of the source, rendered as an ordered test chain. -/
def Adsb.WakeVortexCategory.from_type_code_and_category_unchecked
    (type_code category : Nat) : Adsb.WakeVortexCategory :=
  if category = 0 then .noCategoryInformation type_code
  else if type_code = 2 && category = 1 then .surfaceEmergencyVehicle
  else if type_code = 2 && category = 3 then .surfaceServiceVehicle
  else if type_code = 2 && 4 ≤ category && category ≤ 7 then .groundObstruction category
  else if type_code = 3 && category = 1 then .gliderSailplane
  else if type_code = 3 && category = 2 then .lighterThanAir
  else if type_code = 3 && category = 3 then .parachutistSkydiver
  else if type_code = 3 && category = 4 then .ultralightHangGliderParaGlider
  else if type_code = 3 && category = 6 then .unmannedAerialVehicle
  else if type_code = 3 && category = 7 then .spaceTransatmospherricVehicle
  else if type_code = 4 && category = 1 then .light
  else if type_code = 4 && category = 2 then .medium1
  else if type_code = 4 && category = 3 then .medium2
  else if type_code = 4 && category = 4 then .highVortexAirrcraft
  else if type_code = 4 && category = 5 then .heavy
  else if type_code = 4 && category = 6 then .highPerformance
  else if type_code = 4 && category = 7 then .rotorcraft
  else .reserved type_code category

/-- The fixed 64-entry callsign alphabet `CALLSIGN_ENCODING`
(`#ABCDEFGHIJKLMNOPQRSTUVWXYZ##### ###############0123456789######`)
as ASCII codes; 35 is the code of the invalid marker. -/
def CALLSIGN_ENCODING : List Nat :=
  [35] ++ (List.range 26).map (fun i => 65 + i) ++ [35, 35, 35, 35, 35, 32] ++
    List.replicate 15 35 ++ (List.range 10).map (fun i => 48 + i) ++
    List.replicate 6 35

/-- 8-character callsign (`Callsign`), stored as ASCII codes. -/
structure Adsb.Callsign where
  characters : List Nat
deriving DecidableEq, Repr

/-- `Callsign::from_bytes`: expand six bytes into eight 6-bit groups, resolve
each through `CALLSIGN_ENCODING`, and reject the frame when any group resolves
to the invalid marker (the source stores the resolved marker byte, 35, as
`invalid_byte`). -/
def Adsb.Callsign.from_bytes (bytes : List Nat) : DOut Adsb.Callsign :=
  let b := fun (i : Nat) => bytes.getD i 0
  let expanded : List Nat :=
    [b 0 >>> 2,
     ((b 0 &&& 0b11) <<< 4) ||| (b 1 >>> 4),
     ((b 1 &&& 0b1111) <<< 2) ||| (b 2 >>> 6),
     b 2 &&& 0b111111,
     b 3 >>> 2,
     ((b 3 &&& 0b11) <<< 4) ||| (b 4 >>> 4),
     ((b 4 &&& 0b1111) <<< 2) ||| (b 5 >>> 6),
     b 5 &&& 0b111111]
  let resolved := expanded.map (fun x => CALLSIGN_ENCODING.getD x 0)
  if resolved.contains 35 then .err (.invalidCallsign bytes 35)
  else .ok ⟨resolved⟩

/-- 7-bit surface movement code (`Movement`). -/
structure Adsb.Movement where
  val : Nat
deriving DecidableEq, Repr

/-- 7-bit ground track (`GroundTrack`). -/
structure Adsb.GroundTrack where
  val : Nat
deriving DecidableEq, Repr

/-- `GroundSpeedQuantization`: one region of the piecewise ground-speed
table. -/
inductive Adsb.GroundSpeedQuantization where
  | notAvailable : Adsb.GroundSpeedQuantization
  | stopped : Adsb.GroundSpeedQuantization
  | quantized (encoded_base decoded_base decoded_step : Nat) :
      Adsb.GroundSpeedQuantization
  | exceeding175Kt : Adsb.GroundSpeedQuantization
  | reservedRegion : Adsb.GroundSpeedQuantization
deriving DecidableEq, Repr

/-- `GroundSpeedQuantization::from_encoded_value`: the piecewise table over
the 7-bit movement code (bases and steps in 1/8-kt units). -/
def Adsb.GroundSpeedQuantization.from_encoded_value (encoded : Nat) :
    Adsb.GroundSpeedQuantization :=
  if encoded = 0 then .notAvailable
  else if encoded = 1 then .stopped
  else if encoded ≤ 8 then .quantized 2 1 1
  else if encoded ≤ 12 then .quantized 9 8 2
  else if encoded ≤ 38 then .quantized 13 16 4
  else if encoded ≤ 93 then .quantized 39 120 8
  else if encoded ≤ 108 then .quantized 94 560 16
  else if encoded ≤ 123 then .quantized 109 800 40
  else if encoded = 124 then .exceeding175Kt
  else .reservedRegion

/-- `Movement::decode_as_1_8th_kt`: decode the movement code to a ground
speed in eighths of a knot. -/
def Adsb.Movement.decode_as_1_8th_kt (m : Adsb.Movement) : Option Nat :=
  match Adsb.GroundSpeedQuantization.from_encoded_value m.val with
  | .notAvailable => none
  | .stopped => some 0
  | .quantized encoded_base decoded_base decoded_step =>
      some ((m.val - encoded_base) * decoded_step + decoded_base)
  | .exceeding175Kt => some 1400
  | .reservedRegion => none

/-- `AltitudeType`: barometric (type codes 9..18) or GNSS (20..22). -/
inductive Adsb.AltitudeType where
  | barometric : Adsb.AltitudeType
  | gnss : Adsb.AltitudeType
deriving DecidableEq, Repr

/-- `AltitudeType::from_type_code`: panics on a type code outside
9..18 and 20..22. -/
def Adsb.AltitudeType.from_type_code (type_code : Nat) : DOut Adsb.AltitudeType :=
  if 9 ≤ type_code && type_code ≤ 18 then .ok .barometric
  else if 20 ≤ type_code && type_code ≤ 22 then .ok .gnss
  else .panicked

/-- 2-bit surveillance status (`SurveillanceStatus`). -/
structure Adsb.SurveillanceStatus where
  val : Nat
deriving DecidableEq, Repr

/-- 12-bit ADS-B altitude code (`AltitudeCode` in `adsb.rs`). -/
structure Adsb.AltitudeCode where
  val : Nat
deriving DecidableEq, Repr

/-- `DecodedAltitude` (in `adsb.rs`). -/
structure Adsb.DecodedAltitude where
  altitude_type : Adsb.AltitudeType
  altitude : Int
deriving DecidableEq, Repr

/-- `AltitudeCode::decode` (12-bit, `adsb.rs`): code 0 is unavailable; when
the Q-bit (bit 4) is set the source computes
`((code >> 5) | (code & 0b1111)) * 25 - 1000`; the Q=0 (Gillham) branch is a
`todo!()` panic. -/
def Adsb.AltitudeCode.decode (c : Adsb.AltitudeCode)
    (altitude_type : Adsb.AltitudeType) : DOut (Option Adsb.DecodedAltitude) :=
  if c.val = 0 then .ok none
  else if c.val &&& 0b000000010000 ≠ 0 then
    .ok (some { altitude_type := altitude_type
                altitude := (((c.val >>> 5) ||| (c.val &&& 0b1111)) : Int) * 25 - 1000 })
  else .panicked

/-! ## ADS-B airborne velocity types -/

/-- 10-bit velocity value (`Velocity`). -/
structure Adsb.Velocity where
  val : Nat
deriving DecidableEq, Repr

/-- `MagneticHeading`. -/
structure Adsb.MagneticHeading where
  val : Nat
deriving DecidableEq, Repr

/-- `DirectionNorthSouth`. -/
inductive Adsb.DirectionNorthSouth where
  | southToNorth : Adsb.DirectionNorthSouth
  | northToSouth : Adsb.DirectionNorthSouth
deriving DecidableEq, Repr

/-- `DirectionEastWest`. -/
inductive Adsb.DirectionEastWest where
  | westToEast : Adsb.DirectionEastWest
  | eastToWest : Adsb.DirectionEastWest
deriving DecidableEq, Repr

/-- `GroundSpeed` (velocity sub-types 1/2). -/
structure Adsb.GroundSpeed where
  direction_east_west : Adsb.DirectionEastWest
  velocity_east_west : Option Adsb.Velocity
  direction_north_south : Adsb.DirectionNorthSouth
  velocity_north_south : Option Adsb.Velocity
deriving DecidableEq, Repr

/-- `AirspeedType`. -/
inductive Adsb.AirspeedType where
  | indicated : Adsb.AirspeedType
  | true_ : Adsb.AirspeedType
deriving DecidableEq, Repr

/-- `Airspeed` (velocity sub-types 3/4). -/
structure Adsb.Airspeed where
  magnetic_heading : Option Adsb.MagneticHeading
  airspeed_type : Adsb.AirspeedType
  airspeed_value : Option Adsb.Velocity
deriving DecidableEq, Repr

/-- `VelocityType`. -/
inductive Adsb.VelocityType where
  | groundSpeed (g : Adsb.GroundSpeed) : Adsb.VelocityType
  | airspeed (a : Adsb.Airspeed) : Adsb.VelocityType
deriving DecidableEq, Repr

/-- `VerticalRateSource`. -/
inductive Adsb.VerticalRateSource where
  | barometric : Adsb.VerticalRateSource
  | gnss : Adsb.VerticalRateSource
deriving DecidableEq, Repr

/-- `VerticalRateSign`. -/
inductive Adsb.VerticalRateSign where
  | up : Adsb.VerticalRateSign
  | down : Adsb.VerticalRateSign
deriving DecidableEq, Repr

/-- 9-bit vertical rate code (`VerticalRateValue`). -/
structure Adsb.VerticalRateValue where
  val : Nat
deriving DecidableEq, Repr

/-- `VerticalRate`. -/
structure Adsb.VerticalRate where
  source : Adsb.VerticalRateSource
  sign : Adsb.VerticalRateSign
  value : Option Adsb.VerticalRateValue
deriving DecidableEq, Repr

/-- 2-bit turn indicator (`TurnIndicator`). -/
structure Adsb.TurnIndicator where
  val : Nat
deriving DecidableEq, Repr

/-- `AltitudeDifferenceSign`. -/
inductive Adsb.AltitudeDifferenceSign where
  | gnssAboveBarometric : Adsb.AltitudeDifferenceSign
  | gnssBelowBarometric : Adsb.AltitudeDifferenceSign
deriving DecidableEq, Repr

/-- 7-bit altitude difference code (`AltitudeDifferenceValue`). -/
structure Adsb.AltitudeDifferenceValue where
  val : Nat
deriving DecidableEq, Repr

/-- `AltitudeDifference`. -/
structure Adsb.AltitudeDifference where
  sign : Adsb.AltitudeDifferenceSign
  value : Option Adsb.AltitudeDifferenceValue
deriving DecidableEq, Repr

/-- 3-bit navigation uncertainty category (`NavigationUncertaintyCategory`). -/
structure Adsb.NavigationUncertaintyCategory where
  val : Nat
deriving DecidableEq, Repr

/-- `AirborneVelocity` (type code 19). -/
structure Adsb.AirborneVelocity where
  supersonic : Bool
  intent_change_flag : Bool
  ifr_capability_flag : Bool
  navigation_uncertainty_category : Adsb.NavigationUncertaintyCategory
  velocity_type : Adsb.VelocityType
  vertical_rate : Adsb.VerticalRate
  turn_indicator : Adsb.TurnIndicator
  altitude_difference : Adsb.AltitudeDifference
deriving DecidableEq, Repr

/-- `AirborneVelocity::decode`: reads the six payload bytes and extracts the
fields with exactly the masks and shifts of the source
(`e = ((bytes[0] & 0b11000000) << 8) | bytes[1]`, `f = bytes[2] & 0b1000000`,
`j = (bytes[3] << 6) | (bytes[4] >> 2)` over `u16`); a sub-type outside 1..4
panics. -/
def Adsb.AirborneVelocity.decode (buffer : Buf) (bits_6_to_8 : Nat) :
    DOut (Adsb.AirborneVelocity × Buf) :=
  let sub_type := bits_6_to_8
  let supersonic := sub_type = 3 || sub_type = 4
  DOut.bind (buffer.getBytes 6) fun (p : List Nat × Buf) =>
  let bytes := p.1
  let b := fun (i : Nat) => bytes.getD i 0
  let intent_change_flag := b 0 &&& 0b10000000 ≠ 0
  let ifr_capability_flag := b 0 &&& 0b01000000 ≠ 0
  let navigation_uncertainty_category :
      Adsb.NavigationUncertaintyCategory := ⟨(b 0 &&& 0b00111000) >>> 3⟩
  let d := b 0 &&& 0b00000100 ≠ 0
  let e := ((b 0 &&& 0b11000000) <<< 8) ||| b 1
  let f := b 2 &&& 0b1000000 ≠ 0
  let g := ((b 2 &&& 0b01111111) <<< 3) ||| (b 3 >>> 5)
  let velocity := fun (v : Nat) => if v ≠ 0 then some (Adsb.Velocity.mk v) else none
  let velocity_type : DOut Adsb.VelocityType :=
    if sub_type = 1 || sub_type = 2 then
      let direction_east_west :=
        if d then Adsb.DirectionEastWest.eastToWest
        else Adsb.DirectionEastWest.westToEast
      let velocity_east_west := velocity e
      let direction_north_south :=
        if f then Adsb.DirectionNorthSouth.northToSouth
        else Adsb.DirectionNorthSouth.southToNorth
      let velocity_north_south := velocity g
      .ok (.groundSpeed
        { direction_east_west := direction_east_west
          velocity_east_west := velocity_east_west
          direction_north_south := direction_north_south
          velocity_north_south := velocity_north_south })
    else if sub_type = 3 || sub_type = 4 then
      let magnetic_heading := if d then some (Adsb.MagneticHeading.mk e) else none
      let airspeed_type :=
        if f then Adsb.AirspeedType.true_ else Adsb.AirspeedType.indicated
      let airspeed_value := velocity g
      .ok (.airspeed
        { magnetic_heading := magnetic_heading
          airspeed_type := airspeed_type
          airspeed_value := airspeed_value })
    else .panicked
  DOut.bind velocity_type fun velocity_type =>
  let vertical_rate_source :=
    if b 3 &&& 0b00010000 = 0 then Adsb.VerticalRateSource.gnss
    else Adsb.VerticalRateSource.barometric
  let vertical_rate_sign :=
    if b 3 &&& 0b00001000 = 0 then Adsb.VerticalRateSign.up
    else Adsb.VerticalRateSign.down
  let j := ((b 3) <<< 6) ||| (b 4 >>> 2)
  let vertical_rate_value :=
    if j ≠ 0 then some (Adsb.VerticalRateValue.mk j) else none
  let vertical_rate : Adsb.VerticalRate :=
    { source := vertical_rate_source
      sign := vertical_rate_sign
      value := vertical_rate_value }
  let turn_indicator : Adsb.TurnIndicator := ⟨b 4 &&& 0b00000011⟩
  let altitude_difference_sign :=
    if b 5 &&& 0b10000000 = 0 then Adsb.AltitudeDifferenceSign.gnssAboveBarometric
    else Adsb.AltitudeDifferenceSign.gnssBelowBarometric
  let m := b 5 &&& 0b01111111
  let altitude_difference_value :=
    if m ≠ 0 then some (Adsb.AltitudeDifferenceValue.mk m) else none
  let altitude_difference : Adsb.AltitudeDifference :=
    { sign := altitude_difference_sign, value := altitude_difference_value }
  .ok
    ({ supersonic := supersonic
       intent_change_flag := intent_change_flag
       ifr_capability_flag := ifr_capability_flag
       navigation_uncertainty_category := navigation_uncertainty_category
       velocity_type := velocity_type
       vertical_rate := vertical_rate
       turn_indicator := turn_indicator
       altitude_difference := altitude_difference }, p.2)

/-! ## ADS-B message variants and the message decoder -/

/-- `AircraftIdentification` (type codes 1..4). -/
structure Adsb.AircraftIdentification where
  wake_vortex_category : Adsb.WakeVortexCategory
  callsign : Adsb.Callsign
deriving DecidableEq, Repr

/-- `AircraftIdentification::decode`. -/
def Adsb.AircraftIdentification.decode (buffer : Buf) (type_code bits_6_to_8 : Nat) :
    DOut (Adsb.AircraftIdentification × Buf) :=
  DOut.bind (buffer.getBytes 6) fun (p : List Nat × Buf) =>
  DOut.bind (Adsb.Callsign.from_bytes p.1) fun callsign =>
  .ok
    ({ wake_vortex_category :=
         Adsb.WakeVortexCategory.from_type_code_and_category_unchecked
           type_code bits_6_to_8
       callsign := callsign }, p.2)

/-- `SurfacePosition` (type codes 5..8). -/
structure Adsb.SurfacePosition where
  ground_speed : Adsb.Movement
  ground_track : Option Adsb.GroundTrack
  time : Bool
  cpr_format : CprFormat
  cpr_position : Cpr
deriving DecidableEq, Repr

/-- `SurfacePosition::decode` (`bytes[0] << 5` is a truncating `u8` shift). -/
def Adsb.SurfacePosition.decode (buffer : Buf) (_type_code bits_6_to_8 : Nat) :
    DOut (Adsb.SurfacePosition × Buf) :=
  DOut.bind (buffer.getBytes 6) fun (p : List Nat × Buf) =>
  let bytes := p.1
  let b := fun (i : Nat) => bytes.getD i 0
  let fp := decode_frame_aligned_encoded_position (bytes.drop 1)
  .ok
    ({ ground_speed := ⟨(bits_6_to_8 <<< 4) ||| (b 0 >>> 4)⟩
       ground_track :=
         if b 0 &&& 0b00001000 = 0 then none
         else some ⟨(((b 0) <<< 5) % 256) ||| (b 1 >>> 4)⟩
       time := b 1 &&& 0b00001000 ≠ 0
       cpr_format := fp.1
       cpr_position := fp.2 }, p.2)

/-- `AirbornePosition` (type codes 9..18 and 20..22). -/
structure Adsb.AirbornePosition where
  altitude_type : Adsb.AltitudeType
  surveillance_status : Adsb.SurveillanceStatus
  single_antenna_flag : Bool
  encoded_altitude : Adsb.AltitudeCode
  time : Bool
  cpr_format : CprFormat
  cpr_position : Cpr
deriving DecidableEq, Repr

/-- `AirbornePosition::decode`: the stored 12-bit altitude code is
`u16::from(bytes[0] << 4) | u16::from(bytes[1] >> 4)`, where `bytes[0] << 4`
is a truncating `u8` shift (performed before the widening to `u16`). -/
def Adsb.AirbornePosition.decode (buffer : Buf) (type_code bits_6_to_8 : Nat) :
    DOut (Adsb.AirbornePosition × Buf) :=
  DOut.bind (buffer.getBytes 6) fun (p : List Nat × Buf) =>
  let bytes := p.1
  let b := fun (i : Nat) => bytes.getD i 0
  let fp := decode_frame_aligned_encoded_position (bytes.drop 1)
  DOut.bind (Adsb.AltitudeType.from_type_code type_code) fun altitude_type =>
  .ok
    ({ altitude_type := altitude_type
       surveillance_status := ⟨bits_6_to_8 >>> 1⟩
       single_antenna_flag := bits_6_to_8 &&& 0b1 = 1
       encoded_altitude := ⟨(((b 0) <<< 4) % 256) ||| (b 1 >>> 4)⟩
       time := b 2 &&& 0b00001000 ≠ 0
       cpr_format := fp.1
       cpr_position := fp.2 }, p.2)

/-- `EmergencyPriorityStatus`. -/
structure Adsb.EmergencyPriorityStatus where
  val : Nat
deriving DecidableEq, Repr

/-- `EmergencyPriorityStatusAndModeACode` (type 28, sub-type 1). -/
structure Adsb.EmergencyPriorityStatusAndModeACode where
  emergency_priority_status : Adsb.EmergencyPriorityStatus
  mode_a_code : Squawk
  reserved : Nat
deriving DecidableEq, Repr

/-- `AircraftStatus` (type code 28). -/
inductive Adsb.AircraftStatus where
  | emergencyPriorityStatusAndModeACode
      (v : Adsb.EmergencyPriorityStatusAndModeACode) : Adsb.AircraftStatus
deriving DecidableEq, Repr

/-- `AircraftStatus::decode`: sub-type 1 is decoded; sub-type 2 (TCAS RA) and
every other sub-type hit a `todo!()` panic in the source. -/
def Adsb.AircraftStatus.decode (buffer : Buf) (bits_6_to_8 : Nat) :
    DOut (Adsb.AircraftStatus × Buf) :=
  let sub_type := bits_6_to_8
  if sub_type = 1 then
    DOut.bind (buffer.getBytes 2) fun (p : List Nat × Buf) =>
    let bytes := p.1
    DOut.bind (p.2.getU32) fun (q : Nat × Buf) =>
    .ok
      (.emergencyPriorityStatusAndModeACode
        { emergency_priority_status := ⟨(bytes.getD 0 0) >>> 5⟩
          mode_a_code :=
            Squawk.from_u16_unchecked
              (decode_gillham_id13
                (decode_frame_aligned_altitude_or_identity_code bytes))
          reserved := q.1 }, q.2)
  else .panicked

/-- `SilSupplement`. -/
inductive Adsb.SilSupplement where
  | perHour : Adsb.SilSupplement
  | perSample : Adsb.SilSupplement
deriving DecidableEq, Repr

/-- `SelectedAltitudeType`. -/
inductive Adsb.SelectedAltitudeType where
  | mcpFcu : Adsb.SelectedAltitudeType
  | fms : Adsb.SelectedAltitudeType
deriving DecidableEq, Repr

/-- `TargetStateAndStatusInformation` (type 29, sub-type 1); the source's
informationless `todo: ()` placeholder field is not represented. -/
structure Adsb.TargetStateAndStatusInformation where
  sil_supplement : Adsb.SilSupplement
  selected_altitude_type : Adsb.SelectedAltitudeType
deriving DecidableEq, Repr

/-- `TargetStateAndStatusInformation::decode`. -/
def Adsb.TargetStateAndStatusInformation.decode (buffer : Buf) (bit_8 : Bool) :
    DOut (Adsb.TargetStateAndStatusInformation × Buf) :=
  let sil_supplement :=
    if bit_8 then Adsb.SilSupplement.perSample else Adsb.SilSupplement.perHour
  DOut.bind (buffer.getBytes 6) fun (p : List Nat × Buf) =>
  let selected_altitude_type :=
    if (p.1.getD 0 0) &&& 0b1000000 = 0 then Adsb.SelectedAltitudeType.fms
    else Adsb.SelectedAltitudeType.mcpFcu
  .ok
    ({ sil_supplement := sil_supplement
       selected_altitude_type := selected_altitude_type }, p.2)

/-- `AircraftOperationalStatus` (type code 31); the source's placeholder
`todo: ()` fields are not represented. -/
inductive Adsb.AircraftOperationalStatus where
  | airborne : Adsb.AircraftOperationalStatus
  | surface : Adsb.AircraftOperationalStatus
  | reserved (sub_type : Nat) (data : List Nat) : Adsb.AircraftOperationalStatus
deriving DecidableEq, Repr

/-- `AircraftOperationalStatus::decode`: sub-types 0 and 1 consume no payload
bytes in the source; other sub-types preserve the six payload bytes. -/
def Adsb.AircraftOperationalStatus.decode (buffer : Buf) (bits_6_to_8 : Nat) :
    DOut (Adsb.AircraftOperationalStatus × Buf) :=
  let sub_type := bits_6_to_8
  if sub_type = 0 then .ok (.airborne, buffer)
  else if sub_type = 1 then .ok (.surface, buffer)
  else
    DOut.bind (buffer.getBytes 6) fun (p : List Nat × Buf) =>
    .ok (.reserved sub_type p.1, p.2)

/-- `SurfaceSystemMessage` (type code 24). -/
inductive Adsb.SurfaceSystemMessage where
  | reserved (sub_type : Nat) (data : List Nat) : Adsb.SurfaceSystemMessage
  | multilaterationSystemStatus (data : List Nat) : Adsb.SurfaceSystemMessage
deriving DecidableEq, Repr

/-- `SurfaceSystemMessage::decode`. -/
def Adsb.SurfaceSystemMessage.decode (buffer : Buf) (bits_6_to_8 : Nat) :
    DOut (Adsb.SurfaceSystemMessage × Buf) :=
  let sub_type := bits_6_to_8
  DOut.bind (buffer.getBytes 6) fun (p : List Nat × Buf) =>
  if sub_type = 1 then .ok (.multilaterationSystemStatus p.1, p.2)
  else .ok (.reserved sub_type p.1, p.2)

/-- The ADS-B message (`Message` in `adsb.rs`). -/
inductive Adsb.Message where
  | noPosition : Adsb.Message
  | aircraftIdentification (v : Adsb.AircraftIdentification) : Adsb.Message
  | surfacePosition (v : Adsb.SurfacePosition) : Adsb.Message
  | airbornePosition (v : Adsb.AirbornePosition) : Adsb.Message
  | airborneVelocity (v : Adsb.AirborneVelocity) : Adsb.Message
  | testMessage (data : List Nat) : Adsb.Message
  | surfaceSystemMessage (v : Adsb.SurfaceSystemMessage) : Adsb.Message
  | aircraftStatus (v : Adsb.AircraftStatus) : Adsb.Message
  | targetStateAndStatusInformation
      (v : Adsb.TargetStateAndStatusInformation) : Adsb.Message
  | aircraftOperationalStatus (v : Adsb.AircraftOperationalStatus) : Adsb.Message
  | reserved (type_code sub_type : Nat) (data : List Nat) : Adsb.Message
deriving DecidableEq, Repr

/-- `Message::decode`: dispatch over the 5-bit type code and the 3-bit
sub-type of the first ME byte.  Type code 0 (`todo!("no position")`) and type
code 27 (`todo!("reserved for trajectory change message")`) are panics in the
source. -/
def Adsb.Message.decode (buffer : Buf) : DOut (Adsb.Message × Buf) :=
  DOut.bind buffer.getU8 fun (p0 : Nat × Buf) =>
  let byte_0 := p0.1
  let buffer := p0.2
  let type_code := byte_0 >>> 3
  let bits_6_to_8 := byte_0 &&& 0b111
  let reserved : Buf → DOut (Adsb.Message × Buf) := fun buffer =>
    DOut.bind (buffer.getBytes 6) fun (p : List Nat × Buf) =>
    .ok (.reserved type_code bits_6_to_8 p.1, p.2)
  if type_code = 0 then .panicked
  else if type_code ≤ 4 then
    DOut.bind (Adsb.AircraftIdentification.decode buffer type_code bits_6_to_8)
      fun p => .ok (.aircraftIdentification p.1, p.2)
  else if type_code ≤ 8 then
    DOut.bind (Adsb.SurfacePosition.decode buffer type_code bits_6_to_8)
      fun p => .ok (.surfacePosition p.1, p.2)
  else if type_code ≤ 18 && type_code ≠ 19 || 20 ≤ type_code && type_code ≤ 22 then
    DOut.bind (Adsb.AirbornePosition.decode buffer type_code bits_6_to_8)
      fun p => .ok (.airbornePosition p.1, p.2)
  else if type_code = 19 then
    if 1 ≤ bits_6_to_8 && bits_6_to_8 ≤ 4 then
      DOut.bind (Adsb.AirborneVelocity.decode buffer bits_6_to_8)
        fun p => .ok (.airborneVelocity p.1, p.2)
    else reserved buffer
  else if type_code = 23 then
    if bits_6_to_8 = 0 then
      DOut.bind (buffer.getBytes 6) fun (p : List Nat × Buf) =>
      .ok (.testMessage p.1, p.2)
    else reserved buffer
  else if type_code = 24 then
    DOut.bind (Adsb.SurfaceSystemMessage.decode buffer bits_6_to_8)
      fun p => .ok (.surfaceSystemMessage p.1, p.2)
  else if type_code = 27 then .panicked
  else if type_code = 28 then
    DOut.bind (Adsb.AircraftStatus.decode buffer bits_6_to_8)
      fun p => .ok (.aircraftStatus p.1, p.2)
  else if type_code = 29 then
    let sub_type := bits_6_to_8 >>> 1
    if sub_type = 1 then
      DOut.bind
        (Adsb.TargetStateAndStatusInformation.decode buffer (bits_6_to_8 &&& 1 ≠ 0))
        fun p => .ok (.targetStateAndStatusInformation p.1, p.2)
    else reserved buffer
  else if type_code = 31 then
    DOut.bind (Adsb.AircraftOperationalStatus.decode buffer bits_6_to_8)
      fun p => .ok (.aircraftOperationalStatus p.1, p.2)
  else reserved buffer

/-! ## Mode S frame variants and the frame decoder (`source/mode_s/mod.rs`) -/

/-- `LENGTH_SHORT`: length of a short Mode S frame. -/
def LENGTH_SHORT : Nat := 7

/-- `LENGTH_LONG`: length of a long Mode S frame. -/
def LENGTH_LONG : Nat := 14

/-- `DownlinkFormat`: kind of frame selected by the first bits of byte 0. -/
inductive ModeS.DownlinkFormat where
  | shortAirAirSurveillance : ModeS.DownlinkFormat
  | surveillanceAltitudeReply : ModeS.DownlinkFormat
  | surveillanceIdentityReply : ModeS.DownlinkFormat
  | allCallReply : ModeS.DownlinkFormat
  | longAirAirSurveillance : ModeS.DownlinkFormat
  | extendedSquitter : ModeS.DownlinkFormat
  | extendedSquitterNonTransponder : ModeS.DownlinkFormat
  | militaryExtendedSquitter : ModeS.DownlinkFormat
  | commBAltitudeReply : ModeS.DownlinkFormat
  | commBIdentityReply : ModeS.DownlinkFormat
  | commD : ModeS.DownlinkFormat
deriving DecidableEq, Repr

/-- `DownlinkFormat::from_u8` over the 5-bit downlink-format value: the
source first tests `byte & 0b11 == 0b11` (the LOW two bits of the 5-bit
value) and yields `CommD` when it holds; only otherwise does it match the
enumerated values 0, 4, 5, 11, 16, 17, 18, 19, 20, 21, failing with
`InvalidDf` on anything else. -/
def ModeS.DownlinkFormat.from_u8 (byte : Nat) : DOut ModeS.DownlinkFormat :=
  if byte &&& 0b11 = 0b11 then .ok .commD
  else if byte = 0 then .ok .shortAirAirSurveillance
  else if byte = 4 then .ok .surveillanceAltitudeReply
  else if byte = 5 then .ok .surveillanceIdentityReply
  else if byte = 11 then .ok .allCallReply
  else if byte = 16 then .ok .longAirAirSurveillance
  else if byte = 17 then .ok .extendedSquitter
  else if byte = 18 then .ok .extendedSquitterNonTransponder
  else if byte = 19 then .ok .militaryExtendedSquitter
  else if byte = 20 then .ok .commBAltitudeReply
  else if byte = 21 then .ok .commBIdentityReply
  else .err (.invalidDf byte)

/-- `DownlinkFormat::frame_length`. -/
def ModeS.DownlinkFormat.frame_length (df : ModeS.DownlinkFormat) : Nat :=
  match df with
  | .shortAirAirSurveillance => LENGTH_SHORT
  | .surveillanceAltitudeReply => LENGTH_SHORT
  | .surveillanceIdentityReply => LENGTH_SHORT
  | .allCallReply => LENGTH_SHORT
  | .longAirAirSurveillance => LENGTH_LONG
  | .extendedSquitter => LENGTH_LONG
  | .extendedSquitterNonTransponder => LENGTH_LONG
  | .militaryExtendedSquitter => LENGTH_LONG
  | .commBAltitudeReply => LENGTH_LONG
  | .commBIdentityReply => LENGTH_LONG
  | .commD => LENGTH_SHORT

/-- `ShortAirAirSurveillance` (DF 0). -/
structure ModeS.ShortAirAirSurveillance where
  vertical_status : ModeS.VerticalStatus
  cross_link_capability : ModeS.CrossLinkCapability
  sensitivity_level : ModeS.SensitivityLevel
  reply_information : ModeS.ReplyInformation
  altitude_code : ModeS.AltitudeCode
  address_parity : ModeS.Parity
deriving DecidableEq, Repr

/-- `ShortAirAirSurveillance::decode`. -/
def ModeS.ShortAirAirSurveillance.decode (buffer : Buf) (bits_6_to_8 : Nat) :
    DOut (ModeS.ShortAirAirSurveillance × Buf) :=
  DOut.bind (buffer.getBytes 3) fun (p : List Nat × Buf) =>
  let c := decode_air_air_surveillance_common_fields bits_6_to_8 p.1
  DOut.bind (p.2.getBytes 3) fun (q : List Nat × Buf) =>
  .ok
    ({ vertical_status := c.1
       cross_link_capability := ⟨bits_6_to_8 &&& 0b00000010 ≠ 0⟩
       sensitivity_level := c.2.1
       reply_information := c.2.2.1
       altitude_code := c.2.2.2
       address_parity := ⟨q.1⟩ }, q.2)

/-- `LongAirAirSurveillance` (DF 16). -/
structure ModeS.LongAirAirSurveillance where
  vertical_status : ModeS.VerticalStatus
  sensitivity_level : ModeS.SensitivityLevel
  reply_information : ModeS.ReplyInformation
  altitude_code : ModeS.AltitudeCode
  message : List Nat
  address_parity : ModeS.Parity
deriving DecidableEq, Repr

/-- `LongAirAirSurveillance::decode`. -/
def ModeS.LongAirAirSurveillance.decode (buffer : Buf) (bits_6_to_8 : Nat) :
    DOut (ModeS.LongAirAirSurveillance × Buf) :=
  DOut.bind (buffer.getBytes 3) fun (p : List Nat × Buf) =>
  let c := decode_air_air_surveillance_common_fields bits_6_to_8 p.1
  DOut.bind (p.2.getBytes 7) fun (q : List Nat × Buf) =>
  DOut.bind (q.2.getBytes 3) fun (r : List Nat × Buf) =>
  .ok
    ({ vertical_status := c.1
       sensitivity_level := c.2.1
       reply_information := c.2.2.1
       altitude_code := c.2.2.2
       message := q.1
       address_parity := ⟨r.1⟩ }, r.2)

/-- `SurveillanceAltitudeReply` (DF 4). -/
structure ModeS.SurveillanceAltitudeReply where
  flight_status : ModeS.FlightStatus
  downlink_request : ModeS.DownlinkRequest
  utility_message : ModeS.UtilityMessage
  altitude_code : ModeS.AltitudeCode
  address_parity : ModeS.Parity
deriving DecidableEq, Repr

/-- `SurveillanceAltitudeReply::decode`. -/
def ModeS.SurveillanceAltitudeReply.decode (buffer : Buf) (bits_6_to_8 : Nat) :
    DOut (ModeS.SurveillanceAltitudeReply × Buf) :=
  DOut.bind (buffer.getBytes 3) fun (p : List Nat × Buf) =>
  let c := decode_surveillance_reply_body bits_6_to_8 p.1
  DOut.bind (p.2.getBytes 3) fun (q : List Nat × Buf) =>
  .ok
    ({ flight_status := c.1
       downlink_request := c.2.1
       utility_message := c.2.2.1
       altitude_code := ⟨c.2.2.2⟩
       address_parity := ⟨q.1⟩ }, q.2)

/-- `SurveillanceIdentityReply` (DF 5). -/
structure ModeS.SurveillanceIdentityReply where
  flight_status : ModeS.FlightStatus
  downlink_request : ModeS.DownlinkRequest
  utility_message : ModeS.UtilityMessage
  identity_code : ModeS.IdentityCode
  address_parity : ModeS.Parity
deriving DecidableEq, Repr

/-- `SurveillanceIdentityReply::decode`. -/
def ModeS.SurveillanceIdentityReply.decode (buffer : Buf) (bits_6_to_8 : Nat) :
    DOut (ModeS.SurveillanceIdentityReply × Buf) :=
  DOut.bind (buffer.getBytes 3) fun (p : List Nat × Buf) =>
  let c := decode_surveillance_reply_body bits_6_to_8 p.1
  DOut.bind (p.2.getBytes 3) fun (q : List Nat × Buf) =>
  .ok
    ({ flight_status := c.1
       downlink_request := c.2.1
       utility_message := c.2.2.1
       identity_code := ⟨c.2.2.2⟩
       address_parity := ⟨q.1⟩ }, q.2)

/-- `AllCallReply` (DF 11). -/
structure ModeS.AllCallReply where
  capability : ModeS.Capability
  address_announced : IcaoAddress
  parity_interrogator : ModeS.Parity
deriving DecidableEq, Repr

/-- `AllCallReply::decode`. -/
def ModeS.AllCallReply.decode (buffer : Buf) (bits_6_to_8 : Nat) :
    DOut (ModeS.AllCallReply × Buf) :=
  DOut.bind (buffer.getBytes 3) fun (p : List Nat × Buf) =>
  DOut.bind (p.2.getBytes 3) fun (q : List Nat × Buf) =>
  .ok
    ({ capability := ModeS.Capability.from_u8_unchecked bits_6_to_8
       address_announced := IcaoAddress.from_bytes p.1
       parity_interrogator := ⟨q.1⟩ }, q.2)

/-- `ExtendedSquitter` (DF 17). -/
structure ModeS.ExtendedSquitter where
  capabilities : ModeS.Capability
  address_announced : IcaoAddress
  adsb_message : Adsb.Message
  parity_interrogator : ModeS.Parity
deriving DecidableEq, Repr

/-- `ExtendedSquitter::decode`. -/
def ModeS.ExtendedSquitter.decode (buffer : Buf) (bits_6_to_8 : Nat) :
    DOut (ModeS.ExtendedSquitter × Buf) :=
  DOut.bind (buffer.getBytes 3) fun (p : List Nat × Buf) =>
  DOut.bind (Adsb.Message.decode p.2) fun (m : Adsb.Message × Buf) =>
  DOut.bind (m.2.getBytes 3) fun (q : List Nat × Buf) =>
  .ok
    ({ capabilities := ModeS.Capability.from_u8_unchecked bits_6_to_8
       address_announced := IcaoAddress.from_bytes p.1
       adsb_message := m.1
       parity_interrogator := ⟨q.1⟩ }, q.2)

/-- `ExtendedSquitterNonTransponder` (DF 18). -/
inductive ModeS.ExtendedSquitterNonTransponder where
  | adsbWithIcaoAddress (address_announced : IcaoAddress)
      (adsb_message : Adsb.Message) (parity_interrogator : ModeS.Parity) :
      ModeS.ExtendedSquitterNonTransponder
  | adsbWithNonIcaoAddress (address_announced : IcaoAddress)
      (adsb_message : Adsb.Message) (parity_interrogator : ModeS.Parity) :
      ModeS.ExtendedSquitterNonTransponder
  | tisbWithIcaoAddress1 (address_announced : IcaoAddress)
      (tisb_message : Tisb.Message) (parity_interrogator : ModeS.Parity) :
      ModeS.ExtendedSquitterNonTransponder
  | tisbWithIcaoAddress2 (address_announced : IcaoAddress)
      (tisb_message : Tisb.Message) (parity_interrogator : ModeS.Parity) :
      ModeS.ExtendedSquitterNonTransponder
  | tisbAndAdsrManagement (data : List Nat)
      (parity_interrogator : ModeS.Parity) : ModeS.ExtendedSquitterNonTransponder
  | tisbWithNonIcaoAddress (address_announced : IcaoAddress)
      (tisb_message : Tisb.Message) (parity_interrogator : ModeS.Parity) :
      ModeS.ExtendedSquitterNonTransponder
  | adsrRebroadcast (data : List Nat) (parity_interrogator : ModeS.Parity) :
      ModeS.ExtendedSquitterNonTransponder
  | reservedCf (data : List Nat) (parity_interrogator : ModeS.Parity) :
      ModeS.ExtendedSquitterNonTransponder
deriving DecidableEq, Repr

/-- `ExtendedSquitterNonTransponder::decode`: dispatch on the 3-bit code
format.  As in the source, code formats 3 and 5 also construct the
`TisbWithIcaoAddress1` variant (a flagged source quirk), and code format 5
additionally sets the non-ICAO flag on the announced address. -/
def ModeS.ExtendedSquitterNonTransponder.decode (buffer : Buf)
    (bits_6_to_8 : Nat) : DOut (ModeS.ExtendedSquitterNonTransponder × Buf) :=
  let code_format := ModeS.CodeFormat.from_u8_unchecked bits_6_to_8
  if code_format.val = 0 then
    DOut.bind (buffer.getBytes 3) fun (p : List Nat × Buf) =>
    DOut.bind (Adsb.Message.decode p.2) fun (m : Adsb.Message × Buf) =>
    DOut.bind (m.2.getBytes 3) fun (q : List Nat × Buf) =>
    .ok (.adsbWithIcaoAddress (IcaoAddress.from_bytes p.1) m.1 ⟨q.1⟩, q.2)
  else if code_format.val = 1 then
    DOut.bind (buffer.getBytes 3) fun (p : List Nat × Buf) =>
    DOut.bind (Adsb.Message.decode p.2) fun (m : Adsb.Message × Buf) =>
    DOut.bind (m.2.getBytes 3) fun (q : List Nat × Buf) =>
    .ok (.adsbWithNonIcaoAddress
      ((IcaoAddress.from_bytes p.1).with_non_icao_flag) m.1 ⟨q.1⟩, q.2)
  else if code_format.val = 2 then
    DOut.bind (buffer.getBytes 3) fun (p : List Nat × Buf) =>
    DOut.bind (Tisb.Message.decode p.2) fun (m : Tisb.Message × Buf) =>
    DOut.bind (m.2.getBytes 3) fun (q : List Nat × Buf) =>
    .ok (.tisbWithIcaoAddress1 (IcaoAddress.from_bytes p.1) m.1 ⟨q.1⟩, q.2)
  else if code_format.val = 3 then
    DOut.bind (buffer.getBytes 3) fun (p : List Nat × Buf) =>
    DOut.bind (Tisb.Message.decode p.2) fun (m : Tisb.Message × Buf) =>
    DOut.bind (m.2.getBytes 3) fun (q : List Nat × Buf) =>
    .ok (.tisbWithIcaoAddress1 (IcaoAddress.from_bytes p.1) m.1 ⟨q.1⟩, q.2)
  else if code_format.val = 4 then
    DOut.bind (buffer.getBytes 7) fun (p : List Nat × Buf) =>
    DOut.bind (p.2.getBytes 3) fun (q : List Nat × Buf) =>
    .ok (.tisbAndAdsrManagement p.1 ⟨q.1⟩, q.2)
  else if code_format.val = 5 then
    DOut.bind (buffer.getBytes 3) fun (p : List Nat × Buf) =>
    DOut.bind (Tisb.Message.decode p.2) fun (m : Tisb.Message × Buf) =>
    DOut.bind (m.2.getBytes 3) fun (q : List Nat × Buf) =>
    .ok (.tisbWithIcaoAddress1
      ((IcaoAddress.from_bytes p.1).with_non_icao_flag) m.1 ⟨q.1⟩, q.2)
  else if code_format.val = 6 then
    DOut.bind (buffer.getBytes 7) fun (p : List Nat × Buf) =>
    DOut.bind (p.2.getBytes 3) fun (q : List Nat × Buf) =>
    .ok (.adsrRebroadcast p.1 ⟨q.1⟩, q.2)
  else if code_format.val = 7 then
    DOut.bind (buffer.getBytes 7) fun (p : List Nat × Buf) =>
    DOut.bind (p.2.getBytes 3) fun (q : List Nat × Buf) =>
    .ok (.reservedCf p.1 ⟨q.1⟩, q.2)
  else .panicked

/-- `MilitaryExtendedSquitter` (DF 19). -/
inductive ModeS.MilitaryExtendedSquitter where
  | adsb (address_announced : IcaoAddress) (adsb_message : Adsb.Message) :
      ModeS.MilitaryExtendedSquitter
  | reservedMilitary (application_field : Nat) (data : List Nat) :
      ModeS.MilitaryExtendedSquitter
deriving DecidableEq, Repr

/-- `MilitaryExtendedSquitter::decode`. -/
def ModeS.MilitaryExtendedSquitter.decode (buffer : Buf) (bits_6_to_8 : Nat) :
    DOut (ModeS.MilitaryExtendedSquitter × Buf) :=
  if bits_6_to_8 = 0 then
    DOut.bind (buffer.getBytes 3) fun (p : List Nat × Buf) =>
    DOut.bind (Adsb.Message.decode p.2) fun (m : Adsb.Message × Buf) =>
    .ok (.adsb (IcaoAddress.from_bytes p.1) m.1, m.2)
  else
    DOut.bind (buffer.getBytes 13) fun (p : List Nat × Buf) =>
    .ok (.reservedMilitary bits_6_to_8 p.1, p.2)

/-- `CommBAltitudeReply` (DF 20). -/
structure ModeS.CommBAltitudeReply where
  flight_status : ModeS.FlightStatus
  downlink_request : ModeS.DownlinkRequest
  utility_message : ModeS.UtilityMessage
  altitude_code : ModeS.AltitudeCode
  message : List Nat
  address_parity : ModeS.Parity
deriving DecidableEq, Repr

/-- `CommBAltitudeReply::decode`. -/
def ModeS.CommBAltitudeReply.decode (buffer : Buf) (bits_6_to_8 : Nat) :
    DOut (ModeS.CommBAltitudeReply × Buf) :=
  DOut.bind (buffer.getBytes 3) fun (p : List Nat × Buf) =>
  let c := decode_surveillance_reply_body bits_6_to_8 p.1
  DOut.bind (p.2.getBytes 7) fun (q : List Nat × Buf) =>
  DOut.bind (q.2.getBytes 3) fun (r : List Nat × Buf) =>
  .ok
    ({ flight_status := c.1
       downlink_request := c.2.1
       utility_message := c.2.2.1
       altitude_code := ⟨c.2.2.2⟩
       message := q.1
       address_parity := ⟨r.1⟩ }, r.2)

/-- `CommBIdentityReply` (DF 21). -/
structure ModeS.CommBIdentityReply where
  flight_status : ModeS.FlightStatus
  downlink_request : ModeS.DownlinkRequest
  utility_message : ModeS.UtilityMessage
  identity_code : ModeS.IdentityCode
  message : List Nat
  address_parity : ModeS.Parity
deriving DecidableEq, Repr

/-- `CommBIdentityReply::decode`. -/
def ModeS.CommBIdentityReply.decode (buffer : Buf) (bits_6_to_8 : Nat) :
    DOut (ModeS.CommBIdentityReply × Buf) :=
  DOut.bind (buffer.getBytes 3) fun (p : List Nat × Buf) =>
  let c := decode_surveillance_reply_body bits_6_to_8 p.1
  DOut.bind (p.2.getBytes 7) fun (q : List Nat × Buf) =>
  DOut.bind (q.2.getBytes 3) fun (r : List Nat × Buf) =>
  .ok
    ({ flight_status := c.1
       downlink_request := c.2.1
       utility_message := c.2.2.1
       identity_code := ⟨c.2.2.2⟩
       message := q.1
       address_parity := ⟨r.1⟩ }, r.2)

/-- The decoded Mode S frame (`Frame` in `mod.rs`); `CommD` is a unit
variant in the source. -/
inductive ModeS.Frame where
  | shortAirAirSurveillance (v : ModeS.ShortAirAirSurveillance) : ModeS.Frame
  | surveillanceAltitudeReply (v : ModeS.SurveillanceAltitudeReply) : ModeS.Frame
  | surveillanceIdentityReply (v : ModeS.SurveillanceIdentityReply) : ModeS.Frame
  | allCallReply (v : ModeS.AllCallReply) : ModeS.Frame
  | longAirAirSurveillance (v : ModeS.LongAirAirSurveillance) : ModeS.Frame
  | extendedSquitter (v : ModeS.ExtendedSquitter) : ModeS.Frame
  | extendedSquitterNonTransponder (v : ModeS.ExtendedSquitterNonTransponder) :
      ModeS.Frame
  | militaryExtendedSquitter (v : ModeS.MilitaryExtendedSquitter) : ModeS.Frame
  | commBAltitudeReply (v : ModeS.CommBAltitudeReply) : ModeS.Frame
  | commBIdentityReply (v : ModeS.CommBIdentityReply) : ModeS.Frame
  | commD : ModeS.Frame
deriving DecidableEq, Repr

/-- `Frame::decode`: record the remaining length, pop byte 0 (`NoDf` when
empty), derive the downlink format from its top five bits, check the expected
frame length against the recorded buffer length (`Truncated` when shorter),
then dispatch to the per-variant decoder. -/
def ModeS.Frame.decode (buffer : Buf) : DOut (ModeS.Frame × Buf) :=
  let buffer_length := buffer.remaining
  match buffer.tryGetU8 with
  | none => .err .noDf
  | some (byte_0, buffer) =>
    let bits_1_to_5 := byte_0 >>> 3
    DOut.bind (ModeS.DownlinkFormat.from_u8 bits_1_to_5) fun df =>
    let bits_6_to_8 := byte_0 &&& 0b111
    let expected_length := df.frame_length
    if buffer_length < expected_length then
      .err (.truncated expected_length buffer_length)
    else
      match df with
      | .shortAirAirSurveillance =>
          DOut.bind (ModeS.ShortAirAirSurveillance.decode buffer bits_6_to_8)
            fun p => .ok (.shortAirAirSurveillance p.1, p.2)
      | .surveillanceAltitudeReply =>
          DOut.bind (ModeS.SurveillanceAltitudeReply.decode buffer bits_6_to_8)
            fun p => .ok (.surveillanceAltitudeReply p.1, p.2)
      | .surveillanceIdentityReply =>
          DOut.bind (ModeS.SurveillanceIdentityReply.decode buffer bits_6_to_8)
            fun p => .ok (.surveillanceIdentityReply p.1, p.2)
      | .allCallReply =>
          DOut.bind (ModeS.AllCallReply.decode buffer bits_6_to_8)
            fun p => .ok (.allCallReply p.1, p.2)
      | .longAirAirSurveillance =>
          DOut.bind (ModeS.LongAirAirSurveillance.decode buffer bits_6_to_8)
            fun p => .ok (.longAirAirSurveillance p.1, p.2)
      | .extendedSquitter =>
          DOut.bind (ModeS.ExtendedSquitter.decode buffer bits_6_to_8)
            fun p => .ok (.extendedSquitter p.1, p.2)
      | .extendedSquitterNonTransponder =>
          DOut.bind (ModeS.ExtendedSquitterNonTransponder.decode buffer bits_6_to_8)
            fun p => .ok (.extendedSquitterNonTransponder p.1, p.2)
      | .militaryExtendedSquitter =>
          DOut.bind (ModeS.MilitaryExtendedSquitter.decode buffer bits_6_to_8)
            fun p => .ok (.militaryExtendedSquitter p.1, p.2)
      | .commBAltitudeReply =>
          DOut.bind (ModeS.CommBAltitudeReply.decode buffer bits_6_to_8)
            fun p => .ok (.commBAltitudeReply p.1, p.2)
      | .commBIdentityReply =>
          DOut.bind (ModeS.CommBIdentityReply.decode buffer bits_6_to_8)
            fun p => .ok (.commBIdentityReply p.1, p.2)
      | .commD => .ok (.commD, buffer)

/-! ## Spec-side comparison definitions -/

/-- The Q-bit fold exactly as the spec's words prescribe it (§4.3
"Airborne-position 12-bit altitude decoding"): fold out the Q-bit with
`((code >> 1) & 0x7F0) | (code & 0x0F)`.  Spec-side definition, to be
compared with `Adsb.AltitudeCode.decode` above. -/
def specAirborneAltitudeQFold (code : Nat) : Nat :=
  ((code >>> 1) &&& 0x7F0) ||| (code &&& 0x0F)

/-- The ground-speed table exactly as claim C7 states it, in eighths of a
knot over the 7-bit movement code.  Spec-side definition, to be compared
with `Adsb.Movement.decode_as_1_8th_kt` above. -/
def specMovementTable (e : Nat) : Option Nat :=
  if e = 0 then none
  else if e = 1 then some 0
  else if 2 ≤ e ∧ e ≤ 8 then some ((e - 2) * 1 + 1)
  else if 9 ≤ e ∧ e ≤ 12 then some ((e - 9) * 2 + 8)
  else if 13 ≤ e ∧ e ≤ 38 then some ((e - 13) * 4 + 16)
  else if 39 ≤ e ∧ e ≤ 93 then some ((e - 39) * 8 + 120)
  else if 94 ≤ e ∧ e ≤ 108 then some ((e - 94) * 16 + 560)
  else if 109 ≤ e ∧ e ≤ 123 then some ((e - 109) * 40 + 800)
  else if e = 124 then some 1400
  else none

/-! ## Claims -/

/-- C1: the claim says `Frame::decode` on a well-sized buffer never panics,
in particular for a DF 17 frame whose ADS-B payload has type code 0.  The
code disagrees: on the 14-byte DF 17 frame below (byte 0 = 0x88, ME byte 0 =
0x00, type code 0) the decoder reaches the `todo!("no position")` panic in
`Message::decode`, even though the `Message::NoPosition` variant exists for
exactly this case. -/
theorem c1_decode_panics_on_type_code_zero :
    ModeS.Frame.decode ⟨[0x88, 1, 2, 3, 0, 0, 0, 0, 0, 0, 0, 1, 2, 3]⟩ =
      .panicked := by
  rfl

/-- C2: the claim says byte 0 = 0xC0 (5-bit DF 24, top two bits both 1)
dispatches to `CommD`.  The code disagrees: `DownlinkFormat::from_u8` tests
the LOW two bits of the 5-bit value (`byte & 0b11 == 0b11`), so DF 24
(`0b11000`) falls through to the match and fails with `InvalidDf{value: 24}`. -/
theorem c2_byte_0xC0_rejected_instead_of_commd :
    ModeS.Frame.decode ⟨[0xC0, 0, 0, 0, 0, 0, 0]⟩ =
      .err (.invalidDf 24) := by
  rfl

/-- C3: the claim says 5-bit DF 3 fails with `InvalidDf{value: 3}`.  The
code disagrees: since `3 & 0b11 == 0b11`, `DownlinkFormat::from_u8` returns
`CommD` for DF 3 (likewise 7 and 15), and the 7-byte buffer below decodes
successfully as a `CommD` frame. -/
theorem c3_df3_decodes_as_commd :
    ModeS.Frame.decode ⟨[0x18, 0, 0, 0, 0, 0, 0]⟩ =
      .ok (.commD, ⟨[0, 0, 0, 0, 0, 0]⟩) := by
  rfl

/-- C4: the claim says a Q=1 altitude code decodes to
`(((code >> 1) & 0x7F0) | (code & 0x0F)) * 25 - 1000`, which at code 57
(high bits 1, Q set, low bits 9) is `25 * 25 - 1000 = -375 ft`.  The code
disagrees: it computes `((code >> 5) | (code & 0b1111)) * 25 - 1000`,
omitting the 4-bit re-shift of the high bits, which at 57 gives
`(1 | 9) * 25 - 1000 = -775 ft`. -/
theorem c4_q_bit_altitude_misfolded :
    Adsb.AltitudeCode.decode ⟨57⟩ .barometric =
        .ok (some { altitude_type := .barometric, altitude := -775 }) ∧
      (specAirborneAltitudeQFold 57 : Int) * 25 - 1000 = -375 := by
  constructor
  · rfl
  · rfl

/-- C5: the claim says the 10-bit E/W-velocity field `e` is the low two bits
of payload byte 0 followed by byte 1, so on payload `[0x40, 0, 0, 0, 0, 0]`
(sub-type 1) `e = 0` and the E/W velocity is "not available".  The code
disagrees: it masks `bytes[0] & 0b11000000` (the intent-change and IFR
flags) and shifts it into bits 14..15, yielding `e = 0x4000` and a present
E/W velocity of 16384; the same decode also shows `f` read from bit 1 of
byte 2 (mask `0b1000000`) and `j` built from all eight bits of byte 3. -/
theorem c5_velocity_fields_misextracted :
    Adsb.AirborneVelocity.decode ⟨[0x40, 0, 0, 0, 0, 0]⟩ 1 =
      .ok
        ({ supersonic := false
           intent_change_flag := false
           ifr_capability_flag := true
           navigation_uncertainty_category := ⟨0⟩
           velocity_type := .groundSpeed
             { direction_east_west := .westToEast
               velocity_east_west := some ⟨0x4000⟩
               direction_north_south := .southToNorth
               velocity_north_south := none }
           vertical_rate := { source := .gnss, sign := .up, value := none }
           turn_indicator := ⟨0⟩
           altitude_difference :=
             { sign := .gnssAboveBarometric, value := none } }, ⟨[]⟩) := by
  rfl

/-- C6: the claim says the expected frame length for DF 19 is 14 bytes, so a
7-byte buffer with byte 0 = 0x98 (DF 19) must fail with
`Truncated{expected: 14, actual: 7}`.  The code disagrees: since
`19 & 0b11 == 0b11`, DF 19 is classified as `CommD` with expected length 7,
and the buffer decodes successfully as a `CommD` frame. -/
theorem c6_df19_not_truncated :
    ModeS.Frame.decode ⟨[0x98, 0, 0, 0, 0, 0, 0]⟩ =
      .ok (.commD, ⟨[0, 0, 0, 0, 0, 0]⟩) := by
  rfl

/-- C7: over every 7-bit surface-movement code, `Movement::decode_as_1_8th_kt`
agrees exactly with the piecewise table of the claim (in eighths of a knot):
none at 0 and 125..127, 0 at 1, the six quantized regions with their bases
and steps, and 1400 at 124. -/
theorem c7_movement_table_correct :
    ∀ e : Fin 128,
      Adsb.Movement.decode_as_1_8th_kt ⟨e.val⟩ = specMovementTable e.val := by
  decide

/-- C8: the claim says `Squawk::from_u16(c)` is `Some` exactly when
`c < 0o10000 = 4096`.  The code disagrees: the literal `010000` in the
source is the decimal number 10000 (Rust has no leading-zero octal syntax),
so 4096 — which has five octal digits — is accepted. -/
theorem c8_from_u16_accepts_4096 :
    Squawk.from_u16 0o10000 = some (Squawk.from_u16_unchecked 4096) := by
  rfl

/-- C9 counterexample: the round trip `from_bytes(as_bytes(a)) == a` fails
for an address carrying the non-ICAO flag, as produced by the DF 18 decoder
(`with_non_icao_flag`): `from_bytes` always clears the flag. -/
theorem c9_roundtrip_fails_with_non_icao_flag :
    ((IcaoAddress.from_bytes [75, 23, 42]).with_non_icao_flag).roundtrip ≠
      .ok ((IcaoAddress.from_bytes [75, 23, 42]).with_non_icao_flag) := by
  decide

/-- C9 amended: for every ICAO address whose 24-bit value is in range and
whose non-ICAO flag is clear, `from_bytes(as_bytes(a)) == a`; in general the
round trip returns the address with the non-ICAO flag cleared. -/
theorem c9_roundtrip_without_flag (a : IcaoAddress)
    (h1 : a.address < 0x1000000) (h2 : a.non_icao = false) :
    a.roundtrip = .ok a := by
  obtain ⟨addr, ni⟩ := a
  subst h2
  have h0 : addr / 0x1000000 = 0 := Nat.div_eq_of_lt h1
  have hb : IcaoAddress.as_bytes ⟨addr, false⟩ =
      .ok [addr / 0x10000 % 256, addr / 0x100 % 256, addr % 256] := by
    simp [IcaoAddress.as_bytes, h0]
  simp only [IcaoAddress.roundtrip, hb, IcaoAddress.from_bytes,
    IcaoAddress.from_u32_unchecked]
  simp only [List.getD_cons_zero, List.getD_cons_succ, DOut.ok.injEq,
    IcaoAddress.mk.injEq]
  exact ⟨by omega, trivial⟩

/-- C9 witness: the round trip at the concrete in-range, unflagged address
0x4b172a. -/
theorem c9_roundtrip_without_flag_witness :
    (0x4b172a < 0x1000000) ∧
      (IcaoAddress.mk 0x4b172a false).roundtrip = .ok (IcaoAddress.mk 0x4b172a false) :=
  ⟨by decide, c9_roundtrip_without_flag (IcaoAddress.mk 0x4b172a false) (by decide) rfl⟩

/-- Computation lemma: `AirbornePosition::decode` on an explicit six-byte
payload, reduced up to the altitude-type dispatch. -/
theorem airborne_position_decode_six (type_code bits_6_to_8 b0 b1 b2 b3 b4 b5 : Nat) :
    Adsb.AirbornePosition.decode ⟨[b0, b1, b2, b3, b4, b5]⟩ type_code bits_6_to_8 =
      DOut.bind (Adsb.AltitudeType.from_type_code type_code) (fun t =>
        .ok
          ({ altitude_type := t
             surveillance_status := ⟨bits_6_to_8 >>> 1⟩
             single_antenna_flag := bits_6_to_8 &&& 0b1 = 1
             encoded_altitude := ⟨((b0 <<< 4) % 256) ||| (b1 >>> 4)⟩
             time := b2 &&& 0b00001000 ≠ 0
             cpr_format :=
               (decode_frame_aligned_encoded_position [b1, b2, b3, b4, b5]).1
             cpr_position :=
               (decode_frame_aligned_encoded_position [b1, b2, b3, b4, b5]).2 },
           ⟨[]⟩)) := by
  rfl

/-- C10: for every airborne-position payload whose bytes are in `u8` range,
the 12-bit altitude code stored by `AirbornePosition::decode` has numeric
value at most 0xFF: the source computes `u16::from(bytes[0] << 4)`, a
truncating `u8` shift, so the top four bits of the stored code are always
clear. -/
theorem c10_encoded_altitude_at_most_0xFF
    (type_code bits_6_to_8 b0 b1 b2 b3 b4 b5 : Nat) (hb1 : b1 < 256)
    (ap : Adsb.AirbornePosition) (rest : Buf)
    (h : Adsb.AirbornePosition.decode ⟨[b0, b1, b2, b3, b4, b5]⟩ type_code bits_6_to_8 =
      .ok (ap, rest)) :
    ap.encoded_altitude.val ≤ 0xFF := by
  rw [airborne_position_decode_six] at h
  cases ht : Adsb.AltitudeType.from_type_code type_code with
  | ok t =>
    rw [ht] at h
    simp only [DOut.bind, DOut.ok.injEq, Prod.mk.injEq] at h
    obtain ⟨rfl, -⟩ := h
    show ((b0 <<< 4) % 256 ||| b1 >>> 4) ≤ 0xFF
    have hx : (b0 <<< 4) % 256 < 256 := Nat.mod_lt _ (by norm_num)
    have hy : b1 >>> 4 < 256 := by
      calc b1 >>> 4 = b1 / 2 ^ 4 := Nat.shiftRight_eq_div_pow b1 4
        _ ≤ b1 := Nat.div_le_self b1 16
        _ < 256 := hb1
    have hor := Nat.or_lt_two_pow (n := 8) hx hy
    omega
  | err e => rw [ht] at h; exact DOut.noConfusion h
  | panicked => rw [ht] at h; exact DOut.noConfusion h

/-- C10 witness: the bound at the concrete payload `[0xFF, 0xFF, 0, 0, 0, 0]`
of a type-code-9 airborne-position message (stored code 0xFF). -/
theorem c10_encoded_altitude_at_most_0xFF_witness :
    (0xFF < 256) ∧
      ((Adsb.AirbornePosition.mk .barometric ⟨0⟩ false ⟨0xFF⟩ false
          (decode_frame_aligned_encoded_position [0xFF, 0, 0, 0, 0]).1
          (decode_frame_aligned_encoded_position [0xFF, 0, 0, 0, 0]).2).encoded_altitude.val
        ≤ 0xFF) :=
  ⟨by decide,
    c10_encoded_altitude_at_most_0xFF 9 0 0xFF 0xFF 0 0 0 0 (by decide)
      (Adsb.AirbornePosition.mk .barometric ⟨0⟩ false ⟨0xFF⟩ false
        (decode_frame_aligned_encoded_position [0xFF, 0, 0, 0, 0]).1
        (decode_frame_aligned_encoded_position [0xFF, 0, 0, 0, 0]).2)
      ⟨[]⟩ rfl⟩
